import Mathlib

/-
Verification of the profiling-and-narrative-synthesis engine of
Backend-NoMoreNulls (src/python-service/main.py) against its
natural-language specification.

The Python source is shallowly embedded below: pure helper functions become
Lean functions over `String`/`List`; JSON row data becomes association
lists of nullable values; pandas operations (`notnull().mean()`,
`nunique()`, `max()`, column enumeration of `pd.DataFrame(rows)`) are
embedded by their documented semantics on such rows; machine floats become
exact rationals with an explicit round-half-even 2-decimal rounding.
-/

set_option maxRecDepth 100000

namespace NMN

/-- Model of one scalar cell value received in a JSON row: an integer or a
string.  `main.py` never inspects value types beyond null-ness, ordering
(for the freshness maximum) and equality (for `nunique`). -/
inductive Val where
  | intV (i : Int)
  | strV (s : String)
deriving DecidableEq

/-- A row of the dataset: a finite mapping from column names to nullable
values, as an association list.  A key mapped to `none` models an explicit
JSON null; an absent key models a missing value (pandas turns both into
NaN). -/
abbrev Row := List (String × Option Val)

/-- Cell of column `c` in row `r`: `none` when the key is absent or its
value is null — exactly the cells `pandas.notnull` rejects. -/
def rowGet (r : Row) (c : String) : Option Val :=
  (r.find? (fun p => p.1 == c)).bind (fun p => p.2)

/-- ASCII model of Python `str.lower` on one character (all names the
program manipulates are ASCII). -/
def pyLowerChar (c : Char) : Char :=
  if 65 ≤ c.toNat ∧ c.toNat ≤ 90 then Char.ofNat (c.toNat + 32) else c

/-- Python `str.lower` over a whole string, character-wise (ASCII model). -/
def pyLower (s : String) : String :=
  String.mk (s.data.map pyLowerChar)

/-- Characters matched by the regex class `[a-z0-9]` of
`normalize_column_name`. -/
def isAlnumLower (c : Char) : Bool :=
  (97 ≤ c.toNat && c.toNat ≤ 122) || (48 ≤ c.toNat && c.toNat ≤ 57)

/-- Model of `re.sub(r"[^a-z0-9]+", "_", s)`: every maximal run of
characters outside `[a-z0-9]` is replaced by a single underscore.  The
flag records whether we are already inside such a run (its underscore has
been emitted). -/
def collapseAux (inRun : Bool) : List Char → List Char
  | [] => []
  | c :: cs =>
    if isAlnumLower c then c :: collapseAux false cs
    else if inRun then collapseAux true cs
    else '_' :: collapseAux true cs

/-- Remove a trailing run of underscores (the right half of
Python `str.strip("_")`). -/
def dropTrailUnder : List Char → List Char
  | [] => []
  | c :: cs =>
    match dropTrailUnder cs with
    | [] => if c == '_' then [] else [c]
    | d :: ds => c :: d :: ds

/-- Python `str.strip("_")`: drop leading and trailing runs of
underscores. -/
def stripUnder (l : List Char) : List Char :=
  dropTrailUnder (l.dropWhile (fun c => c == '_'))

/-- Embedding of `normalize_column_name` (main.py line 12):
`re.sub(r"[^a-z0-9]+", "_", str(name).lower()).strip("_")`. -/
def normalize_column_name (name : String) : String :=
  String.mk (stripUnder (collapseAux false (name.data.map pyLowerChar)))

/-- Does list `p` occur at the head of the second list? -/
def leadsList : List Char → List Char → Bool
  | [], _ => true
  | _ :: _, [] => false
  | a :: as, b :: bs => a == b && leadsList as bs

/-- Does `p` occur as a contiguous sublist? -/
def hasSubAux (p : List Char) : List Char → Bool
  | [] => p.isEmpty
  | c :: cs => leadsList p (c :: cs) || hasSubAux p cs

/-- Python substring membership `pat in s`. -/
def containsSub (s pat : String) : Bool :=
  hasSubAux pat.data s.data

/-- Python `s.endswith(suf)`. -/
def endsWithStr (s suf : String) : Bool :=
  leadsList suf.data.reverse s.data.reverse

/-- Python `sep.join(parts)`. -/
def pyJoin (sep : String) : List String → String
  | [] => ""
  | [s] => s
  | s :: t :: rest => s ++ sep ++ pyJoin sep (t :: rest)

/-- A column descriptor from the `/generate-summary` payload.
`type` is optional (`col.get('type', 'unknown')` defaults it); the key
flags model the truthiness of `col.get("isPrimaryKey")` /
`col.get("isForeignKey")`. -/
structure Col where
  name : String
  type : Option String := none
  isPrimaryKey : Bool := false
  isForeignKey : Bool := false
deriving DecidableEq

/-- `primary_keys` comprehension of `build_fallback_summary` (line 19). -/
def primary_keys (columns : List Col) : List String :=
  (columns.filter (fun c => c.isPrimaryKey)).map (fun c => c.name)

/-- `foreign_keys` comprehension (line 20). -/
def foreign_keys (columns : List Col) : List String :=
  (columns.filter (fun c => c.isForeignKey)).map (fun c => c.name)

/-- `id_columns` comprehension (lines 22-27): normalized name ends with
`_id` or equals `id`. -/
def id_columns (columns : List Col) : List String :=
  (columns.filter (fun c =>
    endsWithStr (normalize_column_name c.name) "_id"
      || normalize_column_name c.name == "id")).map (fun c => c.name)

/-- `timestamp_columns` comprehension (lines 28-35). -/
def timestamp_columns (columns : List Col) : List String :=
  (columns.filter (fun c =>
    (["date", "time", "created", "updated", "modified"]).any
      (fun tok => containsSub (normalize_column_name c.name) tok))).map
    (fun c => c.name)

/-- `amount_columns` comprehension (lines 36-43). -/
def amount_columns (columns : List Col) : List String :=
  (columns.filter (fun c =>
    (["amount", "price", "total", "balance", "cost", "value"]).any
      (fun tok => containsSub (normalize_column_name c.name) tok))).map
    (fun c => c.name)

/-- `status_columns` comprehension (lines 44-51). -/
def status_columns (columns : List Col) : List String :=
  (columns.filter (fun c =>
    (["status", "state", "flag", "active", "enabled"]).any
      (fun tok => containsSub (normalize_column_name c.name) tok))).map
    (fun c => c.name)

/-- `relationship_signal` (lines 53-57). -/
def relationship_signal (normalized_table : String) : String :=
  if containsSub normalized_table "relationship"
      || containsSub normalized_table "mapping" then
    "This table appears to work as a relationship/bridge table because its name and schema suggest links between business entities."
  else
    "This table appears to capture a core business entity or transaction record used by operational workflows."

/-- `key_structure` (lines 59-68); Python list truthiness is emptiness. -/
def key_structure (pk fk : List String) : String :=
  (if pk.isEmpty then
    "No explicit primary key was detected in metadata, so uniqueness may depend on a composite business key. "
  else
    "Primary key columns: " ++ pyJoin ", " pk ++ ". ")
  ++
  (if fk.isEmpty then
    "No foreign key constraints were found, so relationships may be managed in application logic."
  else
    "Foreign key columns: " ++ pyJoin ", " fk ++ ".")

/-- The `signals` list (lines 74-90), in the fixed order
timestamp, amount, status, identifier, with the prefix bounds 6/6/6/8. -/
def signals (columns : List Col) : List String :=
  (if (timestamp_columns columns).isEmpty then [] else
    ["Lifecycle tracking is likely available through timestamp-like columns ("
      ++ pyJoin ", " ((timestamp_columns columns).take 6) ++ ")."])
  ++
  (if (amount_columns columns).isEmpty then [] else
    ["Financial or numeric performance measures may be present via amount/value columns ("
      ++ pyJoin ", " ((amount_columns columns).take 6) ++ ")."])
  ++
  (if (status_columns columns).isEmpty then [] else
    ["Process-state monitoring is likely possible using status/flag columns ("
      ++ pyJoin ", " ((status_columns columns).take 6) ++ ")."])
  ++
  (if (id_columns columns).isEmpty then [] else
    ["Entity linkage and drill-down reporting can use identifier columns ("
      ++ pyJoin ", " ((id_columns columns).take 8) ++ ")."])

/-- `column_preview` (lines 92-96): first 12 columns as `name (type)`,
with a `, ...` marker when more than 12 exist. -/
def column_preview (columns : List Col) : String :=
  pyJoin ", " ((columns.take 12).map
    (fun c => c.name ++ " (" ++ c.type.getD "unknown" ++ ")"))
  ++ (if columns.length > 12 then ", ..." else "")

/-- `summary_parts` (lines 98-106), in source order:
lead sentence, relationship signal, key structure, schema preview, the
signal sentences, the fixed analytics sentence, the closing
recommendation. -/
def summary_parts (table_name : String) (columns : List Col) : List String :=
  ["Table \'" ++ table_name ++ "\' contains " ++ toString columns.length
      ++ " columns and is likely part of the business data model used for downstream analytics and operational reporting.",
   relationship_signal (normalize_column_name table_name),
   key_structure (primary_keys columns) (foreign_keys columns),
   "Schema preview: " ++
     (if column_preview columns == "" then
       "No columns were provided in the payload."
     else column_preview columns)]
  ++ signals columns
  ++ ["Likely reporting usage includes entity counts over time, status distribution analysis, and relationship integrity checks across linked tables.",
      "Recommended checks: validate key uniqueness, monitor null rates on business-critical fields, and confirm referential consistency with parent tables before using this table in executive dashboards."]

/-- Embedding of `build_fallback_summary` (lines 16-108):
`" ".join(summary_parts)`. -/
def build_fallback_summary (table_name : String) (columns : List Col) : String :=
  pyJoin " " (summary_parts table_name columns)

/-- Result of one invocation of the external generative service, as seen
by the `try` block of `generate_summary`: either the call raised
(transport/API failure), or it returned a response whose candidates each
carry a list of part texts.  The embedding passes this outcome in as a
parameter; `genai.configure`, which precedes the `try` block, performs no
validation or network activity and is modelled as non-raising. -/
inductive GenResult where
  | failure
  | success (candidates : List (List String))
deriving DecidableEq

/-- Python `str.strip()`: drop leading and trailing whitespace. -/
def pyTrim (s : String) : String :=
  String.mk
    (((s.data.dropWhile Char.isWhitespace).reverse.dropWhile
      Char.isWhitespace).reverse)

/-- Extraction of the summary text from a response (lines 167-172):
`"".join(part.text for part in candidates[0].content.parts if part.text)`
followed by `.strip()`; an empty candidate list yields `""`.  A part
without a usable `text` attribute is modelled as the empty string, which
the truthiness filter removes. -/
def extract_summary : List (List String) → String
  | [] => ""
  | parts :: _ => pyTrim (pyJoin "" (parts.filter (fun t => t ≠ "")))

/-- The maximal whitespace-separated words of a character list, given an
accumulator holding the current word reversed. -/
def wordsAux (acc : List Char) : List Char → List String
  | [] => if acc.isEmpty then [] else [String.mk acc.reverse]
  | c :: cs =>
    if c.isWhitespace then
      if acc.isEmpty then wordsAux [] cs
      else String.mk acc.reverse :: wordsAux [] cs
    else wordsAux (c :: acc) cs

/-- Python `len(s.split())`: number of maximal whitespace-separated
words. -/
def pyWordCount (s : String) : Nat :=
  (wordsAux [] s.data).length

/-- Response shape of the `/generate-summary` endpoint. -/
structure SummaryResponse where
  tableName : String
  businessSummary : String
deriving DecidableEq

/-- Embedding of `generate_summary` (lines 115-186).  Environment state is
passed explicitly: `gemini_api_key` is `os.environ.get("GEMINI_API_KEY")`
(`none` when unset; Python truthiness also treats `some ""` as absent),
`genai_available` is whether `importlib.util.find_spec` locates the
library, and `callResult` is the outcome of the external call.  When an
early branch returns, `callResult` is never consulted — the model of "no
network attempt occurs". -/
def generate_summary (gemini_api_key : Option String) (genai_available : Bool)
    (callResult : GenResult) (table_name : String) (columns : List Col) :
    SummaryResponse :=
  if gemini_api_key.getD "" == "" then
    { tableName := table_name
      businessSummary := build_fallback_summary table_name columns }
  else if !genai_available then
    { tableName := table_name
      businessSummary := build_fallback_summary table_name columns }
  else
    match callResult with
    | .failure =>
      { tableName := table_name
        businessSummary := build_fallback_summary table_name columns }
    | .success cands =>
      if extract_summary cands = ""
          ∨ pyWordCount (extract_summary cands) < 90 then
        { tableName := table_name
          businessSummary := build_fallback_summary table_name columns }
      else
        { tableName := table_name
          businessSummary := extract_summary cands }

/-- Deduplicate keeping the first occurrence of each element, preserving
first-appearance order — the column order of `pd.DataFrame(list_of_dicts)`. -/
def dedupFirst {α : Type} [DecidableEq α] : List α → List α
  | [] => []
  | x :: xs => x :: (dedupFirst xs).filter (fun y => y ≠ x)

/-- Columns of `pd.DataFrame(rows)`: the union of the rows\' key sets, in
order of first appearance. -/
def columnsOf (rows : List Row) : List String :=
  dedupFirst (rows.map (fun r => r.map Prod.fst)).flatten

/-- `df.empty`: true when the frame has no rows or no columns. -/
def dfEmpty (rows : List Row) : Bool :=
  rows.isEmpty || (columnsOf rows).isEmpty

/-- The fixed candidate list of `detect_timestamp_column`
(lines 193-203). -/
def timestamp_candidates : List String :=
  ["created_at", "created_on", "updated_at", "last_updated",
   "modified_date", "modified_on", "created", "created_date",
   "last_updated_date"]

/-- Embedding of `detect_timestamp_column` (lines 192-209): the first
column whose lowercased name is in the candidate list, else `None`. -/
def detect_timestamp_column (cols : List String) : Option String :=
  cols.find? (fun c => timestamp_candidates.contains (pyLower c))

/-- The integer values among the non-null cells of column `c`. -/
def colInts (rows : List Row) (c : String) : List Int :=
  (rows.filterMap (fun r => rowGet r c)).filterMap
    (fun v => match v with | .intV i => some i | .strV _ => none)

/-- The string values among the non-null cells of column `c`. -/
def colStrs (rows : List Row) (c : String) : List String :=
  (rows.filterMap (fun r => rowGet r c)).filterMap
    (fun v => match v with | .strV s => some s | .intV _ => none)

/-- A column whose non-null values mix integers and strings: pandas keeps
it as an object column and `Series.max()` raises `TypeError` (`int` and
`str` do not compare in Python 3). -/
def colMixed (rows : List Row) (c : String) : Bool :=
  !(colInts rows c).isEmpty && !(colStrs rows c).isEmpty

/-- Whether some row has a null or absent cell in column `c` — exactly
when `pd.DataFrame` puts a NaN there, coercing an otherwise integer
column to float64. -/
def colHasNull (rows : List Row) (c : String) : Bool :=
  rows.any (fun r => (rowGet r c).isNone)

/-- `df[col].max()`: the maximum over the non-null cells of the column
(numeric for integers, lexicographic for strings), `ok none` (NaN) when
every cell is null, and `error` for the `TypeError` pandas raises when
the object column mixes integers and strings. -/
def colMax (rows : List Row) (c : String) : Except Unit (Option Val) :=
  if colMixed rows c then Except.error ()
  else
    match colInts rows c with
    | i :: is => Except.ok (some (.intV (is.foldl max i)))
    | [] =>
      match colStrs rows c with
      | s :: ss => Except.ok (some (.strV (ss.foldl max s)))
      | [] => Except.ok none

/-- `str(last_updated)` with the pandas dtype rules: a string column's
maximum prints as itself; an integer column's maximum prints as an int64
(`"5"`) when the column has no null cells, and as the coerced float64
(`"5.0"`) when a null or missing key forced the column to float. -/
def valStrPandas (rows : List Row) (c : String) : Val → String
  | .strV s => s
  | .intV i => if colHasNull rows c then toString i ++ ".0" else toString i

/-- Python `round(x, 2)` modelled exactly on rationals: scale by 100,
round half-to-even, unscale. -/
def round2 (q : ℚ) : ℚ :=
  let s := q * 100
  let f : Int := ⌊s⌋
  let frac : ℚ := s - (f : ℚ)
  let r : Int :=
    if frac < 1/2 then f
    else if 1/2 < frac then f + 1
    else if f % 2 = 0 then f else f + 1
  (r : ℚ) / 100

/-- `df[col].notnull().mean()`: fraction of rows whose cell in `c` is
present and non-null. -/
def notnull_mean (rows : List Row) (c : String) : ℚ :=
  ((rows.map (fun r => if (rowGet r c).isSome then (1 : ℚ) else 0)).sum)
    / (rows.length : ℚ)

/-- `df[col].nunique()`: number of distinct non-null values of the
column. -/
def nunique (rows : List Row) (c : String) : Nat :=
  (dedupFirst (rows.filterMap (fun r => rowGet r c))).length

/-- One entry of the `metrics` list of the analysis report. -/
structure ColumnMetric where
  column : String
  completeness : ℚ
  uniqueness : ℚ
deriving DecidableEq

/-- The `freshness` object of the analysis report. -/
structure FreshnessInfo where
  lastUpdated : Option String
  status : String
deriving DecidableEq

/-- Response shape of the `/analyze-data` endpoint. -/
structure AnalysisReport where
  tableName : String
  metrics : List ColumnMetric
  freshness : FreshnessInfo
  risks : List String
deriving DecidableEq

/-- The column-metrics loop of `analyze_data` (lines 237-250), guarded by
`if not df.empty`. -/
def column_metrics (rows : List Row) : List ColumnMetric :=
  if dfEmpty rows then []
  else
    (columnsOf rows).map (fun c =>
      { column := c
        completeness := round2 (notnull_mean rows c * 100)
        uniqueness :=
          round2 ((nunique rows c : ℚ) / (rows.length : ℚ) * 100) })

/-- The initial freshness dict of `analyze_data` (line 255):
`{"lastUpdated": None, "status": "UNKNOWN"}`. -/
def freshness_init : FreshnessInfo :=
  { lastUpdated := none, status := "UNKNOWN" }

/-- The freshness block of `analyze_data` (lines 255-267): the info is
initialized to `freshness_init` and then overwritten by exactly one of
the three branches, except when `df[timestamp_column].max()` raises,
which propagates out of the handler.  (A found candidate column name is
always a non-empty string, hence truthy.) -/
def freshness_info (rows : List Row) : Except Unit FreshnessInfo :=
  match detect_timestamp_column (columnsOf rows) with
  | some c =>
    if !dfEmpty rows then
      match colMax rows c with
      | Except.error e => Except.error e
      | Except.ok (some v) =>
        Except.ok { freshness_init with
            lastUpdated := some (valStrPandas rows c v), status := "ACTIVE" }
      | Except.ok none =>
        Except.ok { freshness_init with status := "NO DATA" }
    else Except.ok { freshness_init with status := "NO TIMESTAMP" }
  | none => Except.ok { freshness_init with status := "NO TIMESTAMP" }

/-- The freshness dict as the handler leaves it: the branch result when
the block completes, and still the initial UNKNOWN dict at the moment of
the raise on the `TypeError` path.  On that path the handler returns
nothing (`analyze_data_run` models the raise), so the UNKNOWN value is
never part of a response. -/
def freshness_state (rows : List Row) : FreshnessInfo :=
  match freshness_info rows with
  | Except.ok f => f
  | Except.error _ => freshness_init

/-- Python `str` of a non-negative float holding at most two decimal
places (the form every rounded metric has): `66.67`, `6.9`, `0.07`,
`0.0`. -/
def pyFloatRepr (q : ℚ) : String :=
  let c : Int := ⌊q * 100⌋
  let n := c / 100
  let f := c % 100
  if f == 0 then toString n ++ ".0"
  else if f % 10 == 0 then toString n ++ "." ++ toString (f / 10)
  else if f < 10 then toString n ++ ".0" ++ toString f
  else toString n ++ "." ++ toString f

/-- The risk accumulation of `analyze_data` (lines 272-291), in source
order: the empty-table finding, then the per-metric findings, then the
missing-timestamp finding. -/
def risk_list (rows : List Row) (metrics : List ColumnMetric)
    (fstatus : String) : List String :=
  (if dfEmpty rows then ["Table contains no data → Dataset inactive"] else [])
  ++ metrics.flatMap (fun m =>
      (if m.completeness < 50 then
        ["Column \'" ++ m.column ++ "\' has low completeness ("
          ++ pyFloatRepr m.completeness ++ "%)"]
      else [])
      ++
      (if m.uniqueness < 10 then
        ["Column \'" ++ m.column ++ "\' has very low uniqueness ("
          ++ pyFloatRepr m.uniqueness ++ "%)"]
      else []))
  ++ (if fstatus == "NO TIMESTAMP" then
        ["No timestamp column detected → Freshness unavailable"]
      else [])

/-- The report `analyze_data` (lines 215-301) builds on every input on
which it returns.  Its freshness field is `freshness_state`: on the
`TypeError` path the handler raises instead of returning, which
`analyze_data_run` models. -/
def analyze_data (table_name : String) (rows : List Row) : AnalysisReport :=
  { tableName := table_name
    metrics := column_metrics rows
    freshness := freshness_state rows
    risks := risk_list rows (column_metrics rows) (freshness_state rows).status }

/-- The `/analyze-data` endpoint as executed: when the freshness block's
`df[timestamp_column].max()` raises `TypeError` (mixed int/str object
column), the exception propagates and no report is produced; on every
other input the handler returns the `analyze_data` report. -/
def analyze_data_run (table_name : String) (rows : List Row) :
    Except Unit AnalysisReport :=
  match freshness_info rows with
  | Except.error e => Except.error e
  | Except.ok _ => Except.ok (analyze_data table_name rows)

/-! ### Structure of the normalizer's output -/

/-- Characters that can appear in a normalized name: lowercase
alphanumerics and the underscore. -/
def outChar (c : Char) : Bool :=
  isAlnumLower c || c == '_'

/-- Shape invariant of `collapseAux` outputs: no two consecutive
underscores ever occur, and when the index is `false` the list cannot
start with an underscore. -/
inductive Alt : Bool → List Char → Prop
  | nil (b : Bool) : Alt b []
  | alnum (b : Bool) (c : Char) (cs : List Char) :
      isAlnumLower c = true → Alt true cs → Alt b (c :: cs)
  | under (cs : List Char) : Alt false cs → Alt true ('_' :: cs)

theorem alt_collapse (l : List Char) :
    Alt false (collapseAux true l) ∧ Alt true (collapseAux false l) := by
  induction l with
  | nil => exact ⟨Alt.nil false, Alt.nil true⟩
  | cons c cs ih =>
    by_cases hc : isAlnumLower c = true
    · simp only [collapseAux, hc, if_true]
      exact ⟨Alt.alnum false c _ hc ih.2, Alt.alnum true c _ hc ih.2⟩
    · simp only [collapseAux, hc, if_false, if_true, Bool.false_eq_true]
      exact ⟨ih.1, Alt.under _ ih.1⟩

theorem alnum_ne_under {c : Char} (hc : isAlnumLower c = true) :
    (c == '_') = false := by
  by_contra h
  have hcu : c = '_' := by
    have := eq_of_beq (a := c) (b := '_') (by simpa using h)
    exact this
  rw [hcu] at hc
  simp [isAlnumLower] at hc

theorem alt_dropWhile_self {m : List Char} (h : Alt false m) :
    m.dropWhile (fun c => c == '_') = m := by
  cases h with
  | nil => rfl
  | alnum b c cs hc _ => simp [List.dropWhile_cons, alnum_ne_under hc]

theorem alt_dropWhile {l : List Char} (h : Alt true l) :
    Alt false (l.dropWhile (fun c => c == '_')) := by
  cases h with
  | nil => exact Alt.nil false
  | alnum b c cs hc ha =>
    rw [List.dropWhile_cons]
    simp only [alnum_ne_under hc, Bool.false_eq_true, if_false]
    exact Alt.alnum false c cs hc ha
  | under cs h =>
    rw [List.dropWhile_cons]
    simp only [beq_self_eq_true, if_true]
    rw [alt_dropWhile_self h]
    exact h


/-- Canonical character lists: non-empty runs of lowercase alphanumerics
separated by single underscores, with no leading or trailing underscore
allowed except a leading one (handled separately).  Exactly the lists on
which one collapsing pass acts as the identity. -/
inductive Canon : List Char → Prop
  | nil : Canon []
  | last (c : Char) : isAlnumLower c = true → Canon [c]
  | alnum (c d : Char) (cs : List Char) : isAlnumLower c = true →
      Canon (d :: cs) → Canon (c :: d :: cs)
  | under (d : Char) (cs : List Char) : isAlnumLower d = true →
      Canon (d :: cs) → Canon ('_' :: d :: cs)

theorem canon_head {d : Char} {ds : List Char} (h : Canon (d :: ds)) :
    isAlnumLower d = true ∨ d = '_' := by
  cases h with
  | last _ hc => exact Or.inl hc
  | alnum _ _ _ hc _ => exact Or.inl hc
  | under _ _ _ _ => exact Or.inr rfl

theorem canon_dropTrail {b : Bool} {l : List Char} (h : Alt b l) :
    Canon (dropTrailUnder l) ∧
      (b = false → ∀ ds, dropTrailUnder l ≠ '_' :: ds) := by
  induction h with
  | nil b => exact ⟨Canon.nil, fun _ ds h => by cases h⟩
  | alnum b c cs hc _ ih =>
    refine ⟨?_, ?_⟩
    · show Canon (dropTrailUnder (c :: cs))
      rw [dropTrailUnder]
      cases hd : dropTrailUnder cs with
      | nil =>
        simp only [alnum_ne_under hc, Bool.false_eq_true, if_false]
        exact Canon.last c hc
      | cons d ds =>
        have h1 := ih.1
        rw [hd] at h1
        exact Canon.alnum c d ds hc h1
    · intro _ es hcon
      rw [dropTrailUnder] at hcon
      cases hd : dropTrailUnder cs with
      | nil =>
        rw [hd] at hcon
        simp only [alnum_ne_under hc, Bool.false_eq_true, if_false] at hcon
        have : c = '_' := (List.cons.injEq _ _ _ _ ▸ hcon).1
        rw [this] at hc
        simp [isAlnumLower] at hc
      | cons d ds =>
        rw [hd] at hcon
        have : c = '_' := (List.cons.injEq _ _ _ _ ▸ hcon).1
        rw [this] at hc
        simp [isAlnumLower] at hc
  | under cs _ ih =>
    refine ⟨?_, fun hb _ _ => by cases hb⟩
    show Canon (dropTrailUnder ('_' :: cs))
    rw [dropTrailUnder]
    cases hd : dropTrailUnder cs with
    | nil => exact Canon.nil
    | cons d ds =>
      have h1 := ih.1
      rw [hd] at h1
      have hdne : d ≠ '_' := by
        intro hdu
        exact ih.2 rfl ds (hdu ▸ hd)
      have hda : isAlnumLower d = true := by
        rcases canon_head h1 with h | h
        · exact h
        · exact absurd h hdne
      exact Canon.under d ds hda h1

theorem canon_all {l : List Char} (h : Canon l) :
    ∀ c ∈ l, outChar c = true := by
  induction h with
  | nil => intro c hc; cases hc
  | last c hc =>
    intro e he
    rcases List.mem_cons.mp he with he | he
    · simp [he, outChar, hc]
    · cases he
  | alnum c d cs hc _ ih =>
    intro e he
    rcases List.mem_cons.mp he with he | he
    · simp [he, outChar, hc]
    · exact ih e he
  | under d cs _ _ ih =>
    intro e he
    rcases List.mem_cons.mp he with he | he
    · simp [he, outChar]
    · exact ih e he

theorem collapseAux_cons_alnum {c : Char} (b : Bool) (cs : List Char)
    (hc : isAlnumLower c = true) :
    collapseAux b (c :: cs) = c :: collapseAux false cs := by
  simp only [collapseAux, hc, if_true]

theorem collapseAux_cons_other {c : Char} (cs : List Char)
    (hc : isAlnumLower c = false) :
    collapseAux false (c :: cs) = '_' :: collapseAux true cs := by
  simp only [collapseAux, hc, Bool.false_eq_true, if_false]

theorem collapse_canon_id {l : List Char} (h : Canon l) :
    collapseAux false l = l ∧
      (∀ d ds, l = d :: ds → isAlnumLower d = true → collapseAux true l = l) := by
  induction h with
  | nil => exact ⟨rfl, fun d ds h => by cases h⟩
  | last c hc =>
    constructor
    · simp [collapseAux, hc]
    · intro d ds _ _
      simp [collapseAux, hc]
  | alnum c d cs hc _ ih =>
    constructor
    · show collapseAux false (c :: d :: cs) = c :: d :: cs
      rw [collapseAux_cons_alnum false (d :: cs) hc, ih.1]
    · intro e es _ _
      show collapseAux true (c :: d :: cs) = c :: d :: cs
      rw [collapseAux_cons_alnum true (d :: cs) hc, ih.1]
  | under d cs hd _ ih =>
    have hu : isAlnumLower '_' = false := by decide
    constructor
    · show collapseAux false ('_' :: d :: cs) = '_' :: d :: cs
      rw [collapseAux_cons_other (d :: cs) hu, ih.2 d cs rfl hd]
    · intro e es hcons hea
      have : e = '_' := (List.cons.injEq _ _ _ _ ▸ hcons.symm).1
      rw [this] at hea
      exact absurd hea (by decide)

theorem dropTrail_canon_id {l : List Char} (h : Canon l) :
    dropTrailUnder l = l := by
  induction h with
  | nil => rfl
  | last c hc =>
    show dropTrailUnder [c] = [c]
    rw [dropTrailUnder]
    simp [dropTrailUnder, alnum_ne_under hc]
  | alnum c d cs _ _ ih =>
    show dropTrailUnder (c :: d :: cs) = c :: d :: cs
    rw [dropTrailUnder, ih]
  | under d cs _ _ ih =>
    show dropTrailUnder ('_' :: d :: cs) = '_' :: d :: cs
    rw [dropTrailUnder, ih]

theorem pyLowerChar_fix {c : Char} (h : outChar c = true) :
    pyLowerChar c = c := by
  rw [outChar, Bool.or_eq_true] at h
  rcases h with h | h
  · rw [isAlnumLower, Bool.or_eq_true] at h
    rcases h with h | h <;>
    · rw [Bool.and_eq_true] at h
      have h1 := of_decide_eq_true h.1
      have h2 := of_decide_eq_true h.2
      rw [pyLowerChar, if_neg (by omega)]
  · rw [eq_of_beq h]
    rfl

/-- The structural facts about the normalizer's output: its character
list is canonical and does not start with an underscore. -/
theorem normalize_canonical (x : String) :
    Canon (normalize_column_name x).data ∧
      ∀ ds, (normalize_column_name x).data ≠ '_' :: ds := by
  have h1 : Alt true (collapseAux false (x.data.map pyLowerChar)) :=
    (alt_collapse _).2
  have h2 := alt_dropWhile h1
  have h3 := canon_dropTrail h2
  exact ⟨h3.1, h3.2 rfl⟩

/-! ### Claim theorems -/

/-- Claim C5: the Name Normalizer is idempotent and case-insensitive —
for every string `x`, `normalize(normalize(x)) = normalize(x)`, and
`normalize("Created_At") = normalize("created at")`; moreover every
character of the output is a lowercase alphanumeric or an underscore
(the output alphabet of run-collapsing and stripping). -/
theorem claim_C5_normalizer_idempotent :
    (∀ x : String,
      normalize_column_name (normalize_column_name x) = normalize_column_name x)
    ∧ normalize_column_name "Created_At" = normalize_column_name "created at"
    ∧ (∀ x : String, (normalize_column_name x).data.all outChar = true) := by
  refine ⟨?_, by decide, ?_⟩
  · intro x
    obtain ⟨hcanon, hhead⟩ := normalize_canonical x
    have hmap : (normalize_column_name x).data.map pyLowerChar
        = (normalize_column_name x).data := by
      have := List.map_congr_left
        (f := pyLowerChar) (g := id)
        (fun c hc => pyLowerChar_fix (canon_all hcanon c hc))
      rw [this, List.map_id]
    have hcol : collapseAux false (normalize_column_name x).data
        = (normalize_column_name x).data := (collapse_canon_id hcanon).1
    have hdw : (normalize_column_name x).data.dropWhile (fun c => c == '_')
        = (normalize_column_name x).data := by
      cases hy : (normalize_column_name x).data with
      | nil => rfl
      | cons c cs =>
        rw [List.dropWhile_cons]
        have hne : (c == '_') = false := by
          by_contra hcc
          have hc' : c = '_' := eq_of_beq (by simpa using hcc)
          exact hhead cs (by rw [hy, hc'])
        simp [hne]
    have hdt : dropTrailUnder (normalize_column_name x).data
        = (normalize_column_name x).data := dropTrail_canon_id hcanon
    show String.mk (stripUnder (collapseAux false
      ((normalize_column_name x).data.map pyLowerChar)))
        = normalize_column_name x
    rw [hmap, hcol, stripUnder, hdw, hdt]
  · intro x
    exact List.all_eq_true.mpr
      (fun c hc => canon_all (normalize_canonical x).1 c hc)

theorem leadsList_append {p a : List Char} (b : List Char)
    (h : leadsList p a = true) : leadsList p (a ++ b) = true := by
  induction p generalizing a with
  | nil => rfl
  | cons x xs ih =>
    cases a with
    | nil => cases h
    | cons c cs =>
      rw [leadsList, Bool.and_eq_true] at h
      rw [List.cons_append, leadsList, Bool.and_eq_true]
      exact ⟨h.1, ih h.2⟩

theorem hasSub_append_left {p a : List Char} (b : List Char)
    (h : hasSubAux p a = true) : hasSubAux p (a ++ b) = true := by
  induction a with
  | nil =>
    rw [hasSubAux] at h
    have : p = [] := by simpa [List.isEmpty_iff] using h
    subst this
    cases b with
    | nil => rfl
    | cons c cs => rw [List.nil_append, hasSubAux]; rfl
  | cons c cs ih =>
    rw [hasSubAux, Bool.or_eq_true] at h
    rw [List.cons_append, hasSubAux, Bool.or_eq_true]
    rcases h with h | h
    · exact Or.inl (leadsList_append b h)
    · exact Or.inr (ih h)

theorem hasSub_append_right {p b : List Char} (a : List Char)
    (h : hasSubAux p b = true) : hasSubAux p (a ++ b) = true := by
  induction a with
  | nil => simpa using h
  | cons c cs ih =>
    rw [List.cons_append, hasSubAux, Bool.or_eq_true]
    exact Or.inr ih

theorem leadsList_refl (l : List Char) : leadsList l l = true := by
  induction l with
  | nil => rfl
  | cons c cs ih => rw [leadsList, Bool.and_eq_true]; exact ⟨beq_self_eq_true c, ih⟩

theorem hasSub_self (l : List Char) : hasSubAux l l = true := by
  cases l with
  | nil => rfl
  | cons c cs => rw [hasSubAux, Bool.or_eq_true]; exact Or.inl (leadsList_refl _)

/-- A string that is one of the joined parts occurs as a substring of the
join. -/
theorem pyJoin_mem_contains {pat : String} {parts : List String}
    (sep : String) (h : pat ∈ parts) :
    containsSub (pyJoin sep parts) pat = true := by
  induction parts with
  | nil => cases h
  | cons s rest ih =>
    rcases List.mem_cons.mp h with he | he
    · subst he
      cases rest with
      | nil => exact hasSub_self _
      | cons t ts =>
        rw [pyJoin, containsSub, String.data_append, String.data_append]
        rw [List.append_assoc]
        exact hasSub_append_left _ (hasSub_self _)
    · cases rest with
      | nil => cases he
      | cons t ts =>
        rw [pyJoin, containsSub, String.data_append]
        exact hasSub_append_right _ (ih he)

/-- The column list of the C8 scenario: `user_role_mapping` with columns
`id`, `user_id`, `role_id` and no key flags. -/
def mappingCols : List Col :=
  [{ name := "id" }, { name := "user_id" }, { name := "role_id" }]

/-- Claim C8: for table `user_role_mapping` with columns `id`, `user_id`,
`role_id` (no key flags), the heuristic narrative mentions
"relationship" (the normalized table name contains "mapping"), its
identifier-signal sentence lists `user_id` and `role_id` among the
identifier-like columns, and no primary or foreign key columns are
listed (the two absence sentences appear instead). -/
theorem claim_C8_mapping_table_narrative :
    containsSub (normalize_column_name "user_role_mapping") "mapping" = true
    ∧ containsSub (build_fallback_summary "user_role_mapping" mappingCols)
        "relationship" = true
    ∧ id_columns mappingCols = ["id", "user_id", "role_id"]
    ∧ containsSub (build_fallback_summary "user_role_mapping" mappingCols)
        "Entity linkage and drill-down reporting can use identifier columns (id, user_id, role_id)."
        = true
    ∧ primary_keys mappingCols = []
    ∧ foreign_keys mappingCols = []
    ∧ containsSub (build_fallback_summary "user_role_mapping" mappingCols)
        "No explicit primary key was detected" = true
    ∧ containsSub (build_fallback_summary "user_role_mapping" mappingCols)
        "No foreign key constraints were found" = true := by
  refine ⟨by decide, by decide, by decide, by decide, by decide, by decide,
    by decide, by decide⟩

/-- Claim C9: for an empty column list the Heuristic Narrative Builder is
total (the Lean embedding is a total function, modelling that the Python
code does not raise) and, whatever the table name, its schema-preview
sentence states that no columns were provided, and that sentence occurs
in the built summary. -/
theorem claim_C9_empty_columns :
    ∀ tn : String,
      (summary_parts tn [])[3]? =
        some "Schema preview: No columns were provided in the payload."
      ∧ containsSub (build_fallback_summary tn [])
          "Schema preview: No columns were provided in the payload." = true := by
  intro tn
  have hel : ("Schema preview: " ++
      (if column_preview ([] : List Col) == "" then
        "No columns were provided in the payload."
      else column_preview []) : String)
      = "Schema preview: No columns were provided in the payload." := by decide
  constructor
  · show ((["Table \'" ++ tn ++ "\' contains " ++ toString (0 : Nat)
        ++ " columns and is likely part of the business data model used for downstream analytics and operational reporting.",
      relationship_signal (normalize_column_name tn),
      key_structure (primary_keys []) (foreign_keys []),
      "Schema preview: " ++
        (if column_preview ([] : List Col) == "" then
          "No columns were provided in the payload."
        else column_preview [])]
      ++ signals [] ++ [_, _])[3]?) = _
    rw [hel]
    rfl
  · apply pyJoin_mem_contains
    rw [summary_parts]
    refine List.mem_append_left _ (List.mem_append_left _ ?_)
    rw [hel]
    exact List.mem_cons_of_mem _ (List.mem_cons_of_mem _
      (List.mem_cons_of_mem _ (List.mem_cons_self _ _)))

/-- Claim C7: when no external-service credential is configured, the
business summary equals the Heuristic Narrative Builder's output for the
same inputs, and the external call is never consulted — the result is
identical for any two outcomes of the external call, the model of "no
network attempt occurs". -/
theorem claim_C7_no_credential_fallback :
    ∀ (lib : Bool) (c₁ c₂ : GenResult) (tn : String) (cols : List Col),
      generate_summary none lib c₁ tn cols = generate_summary none lib c₂ tn cols
      ∧ (generate_summary none lib c₁ tn cols).businessSummary
          = build_fallback_summary tn cols := by
  intro lib c₁ c₂ tn cols
  constructor <;> rfl

/-- Claim C6: `generate_summary` never fails observably — it is total,
always reports the requested table name, a raising external call is
degraded to the heuristic fallback, a successful call whose extracted
text is empty or shorter than 90 words is likewise discarded for the
fallback, and in every case the returned summary is either the fallback
or the non-empty, long-enough extracted text. -/
theorem claim_C6_generate_summary_total_fallback :
    ∀ (key : Option String) (lib : Bool) (call : GenResult)
      (tn : String) (cols : List Col),
      (generate_summary key lib call tn cols).tableName = tn
      ∧ (call = GenResult.failure →
          (generate_summary key lib call tn cols).businessSummary
            = build_fallback_summary tn cols)
      ∧ (∀ cands, call = GenResult.success cands →
          (extract_summary cands = "" ∨ pyWordCount (extract_summary cands) < 90) →
          (generate_summary key lib call tn cols).businessSummary
            = build_fallback_summary tn cols)
      ∧ ((generate_summary key lib call tn cols).businessSummary
            = build_fallback_summary tn cols
          ∨ ∃ cands, call = GenResult.success cands
              ∧ (generate_summary key lib call tn cols).businessSummary
                  = extract_summary cands
              ∧ extract_summary cands ≠ ""
              ∧ 90 ≤ pyWordCount (extract_summary cands)) := by
  intro key lib call tn cols
  unfold generate_summary
  split
  · exact ⟨rfl, fun _ => rfl, fun _ _ _ => rfl, Or.inl rfl⟩
  · split
    · exact ⟨rfl, fun _ => rfl, fun _ _ _ => rfl, Or.inl rfl⟩
    · split
      · refine ⟨rfl, fun _ => rfl, fun _ h => ?_, Or.inl rfl⟩
        exact nomatch h
      · rename_i cands
        refine ⟨?_, ?_, ?_, ?_⟩
        · by_cases hgate : extract_summary cands = ""
              ∨ pyWordCount (extract_summary cands) < 90
          · rw [if_pos hgate]
          · rw [if_neg hgate]
        · intro h
          exact nomatch h
        · intro cands' hc he
          have hceq : cands' = cands := by
            injection hc with h2
            exact h2.symm
          subst hceq
          rw [if_pos he]
        · by_cases hgate : extract_summary cands = ""
              ∨ pyWordCount (extract_summary cands) < 90
          · rw [if_pos hgate]
            exact Or.inl rfl
          · rw [if_neg hgate]
            rw [not_or] at hgate
            exact Or.inr ⟨cands, rfl, rfl, hgate.1, by omega⟩

/-- Witness for C6: a successful external call returning a two-word text
(below the 90-word gate) is discarded for the heuristic fallback. -/
theorem claim_C6_witness :
    GenResult.success [["too short"]] = GenResult.success [["too short"]]
    ∧ (generate_summary (some "k") true (GenResult.success [["too short"]])
        "users" []).businessSummary = build_fallback_summary "users" [] := by
  refine ⟨rfl, ?_⟩
  exact (claim_C6_generate_summary_total_fallback (some "k") true
    (GenResult.success [["too short"]]) "users" []).2.2.1
    [["too short"]] rfl (Or.inr (by decide))

/-- A dataset whose detected timestamp column mixes an integer and a
string value. -/
def mixedRows3 : List Row :=
  [[("created_at", some (Val.intV 1))],
   [("created_at", some (Val.strV "2024-01-01"))]]

/-- Counterexample to claim C3 as stated: a payload exists whose
detected timestamp column mixes integer and string values, so
`df[col].max()` raises `TypeError`; the endpoint produces no report and
hence no freshness status at all. -/
theorem claim_C3_counterexample :
    detect_timestamp_column (columnsOf mixedRows3) = some "created_at"
    ∧ analyze_data_run "t" mixedRows3 = Except.error () :=
  ⟨rfl, rfl⟩

/-- Claim C3 (amended): whenever the `/analyze-data` endpoint returns a
report — every payload except those whose detected timestamp column
mixes integer and string values, where `df[col].max()` raises — the
freshness status is one of ACTIVE, NO DATA, NO TIMESTAMP; the initial
UNKNOWN of `freshness_init` is never observably returned, because on
every returning path one of the three branch rules overwrites it. -/
theorem claim_C3_freshness_status_never_unknown :
    ∀ (tn : String) (rows : List Row) (rep : AnalysisReport),
      analyze_data_run tn rows = Except.ok rep →
      ((rep.freshness.status = "ACTIVE"
        ∨ rep.freshness.status = "NO DATA"
        ∨ rep.freshness.status = "NO TIMESTAMP")
      ∧ rep.freshness.status ≠ "UNKNOWN") := by
  intro tn rows rep hok
  have hset : ∀ f, freshness_info rows = Except.ok f →
      (f.status = "ACTIVE" ∨ f.status = "NO DATA"
        ∨ f.status = "NO TIMESTAMP") := by
    intro f hf
    unfold freshness_info at hf
    split at hf
    · split at hf
      · split at hf
        · cases hf
        · injection hf with hf
          subst hf
          exact Or.inl rfl
        · injection hf with hf
          subst hf
          exact Or.inr (Or.inl rfl)
      · injection hf with hf
        subst hf
        exact Or.inr (Or.inr rfl)
    · injection hf with hf
      subst hf
      exact Or.inr (Or.inr rfl)
  unfold analyze_data_run at hok
  cases hfi : freshness_info rows with
  | error e => rw [hfi] at hok; cases hok
  | ok f =>
    rw [hfi] at hok
    injection hok with hok
    subst hok
    have hfs : (analyze_data tn rows).freshness = f := by
      show freshness_state rows = f
      unfold freshness_state
      rw [hfi]
    rw [hfs]
    have h3 := hset f hfi
    refine ⟨h3, ?_⟩
    rcases h3 with h | h | h <;> rw [h] <;> decide

/-- Every inner list of a list of empty lists flattens to nothing. -/
theorem flatten_eq_nil_of_all {α : Type} {L : List (List α)}
    (h : ∀ l ∈ L, l = []) : L.flatten = [] := by
  induction L with
  | nil => rfl
  | cons x xs ih =>
    rw [List.flatten_cons, h x (List.mem_cons_self x xs), List.nil_append]
    exact ih (fun l hl => h l (List.mem_cons_of_mem x hl))

/-- Claim C10: a non-empty rows sequence in which every row is an empty
mapping is reported exactly like zero rows — `pd.DataFrame` then has no
columns, making `df.empty` true: empty metrics, NO TIMESTAMP freshness,
and risks beginning with the "no data" finding; indeed the whole report
equals the zero-row report. -/
theorem claim_C10_all_rows_empty_like_no_rows :
    ∀ (tn : String) (rows : List Row),
      rows ≠ [] → (∀ r ∈ rows, r = ([] : Row)) →
      analyze_data tn rows = analyze_data tn []
      ∧ (analyze_data tn rows).metrics = []
      ∧ (analyze_data tn rows).freshness.status = "NO TIMESTAMP"
      ∧ (analyze_data tn rows).risks.head? =
          some "Table contains no data → Dataset inactive" := by
  intro tn rows hne hall
  have hcols : columnsOf rows = [] := by
    unfold columnsOf
    have hflat : (rows.map (fun r => r.map Prod.fst)).flatten = [] := by
      apply flatten_eq_nil_of_all
      intro l hl
      obtain ⟨r, hr, hrl⟩ := List.mem_map.mp hl
      rw [← hrl, hall r hr]
      rfl
    rw [hflat]
    rfl
  have hEmpty : dfEmpty rows = true := by
    unfold dfEmpty
    rw [hcols]
    simp
  have hmet : column_metrics rows = [] := by
    unfold column_metrics
    rw [if_pos hEmpty]
  have hfi : freshness_info rows =
      Except.ok { lastUpdated := none, status := "NO TIMESTAMP" } := by
    unfold freshness_info
    rw [hcols]
    rfl
  have hfr : freshness_state rows =
      { lastUpdated := none, status := "NO TIMESTAMP" } := by
    unfold freshness_state
    rw [hfi]
  have hrisk : risk_list rows (column_metrics rows) (freshness_state rows).status
      = ["Table contains no data → Dataset inactive",
         "No timestamp column detected → Freshness unavailable"] := by
    rw [hmet, hfr]
    unfold risk_list
    rw [if_pos hEmpty]
    rfl
  have hrep : analyze_data tn rows = analyze_data tn [] := by
    show ({ tableName := tn
            metrics := column_metrics rows
            freshness := freshness_state rows
            risks := risk_list rows (column_metrics rows)
              (freshness_state rows).status } : AnalysisReport) = _
    rw [hrisk, hmet, hfr]
    rfl
  refine ⟨hrep, ?_, ?_, ?_⟩
  · show column_metrics rows = []
    exact hmet
  · show (freshness_state rows).status = "NO TIMESTAMP"
    rw [hfr]
  · show (risk_list rows (column_metrics rows)
      (freshness_state rows).status).head? = _
    rw [hrisk]
    rfl

/-- Witness for C10 at the concrete input `rows = [{}, {}]`. -/
theorem claim_C10_witness :
    (analyze_data "t" [([] : Row), []]).metrics = []
    ∧ (analyze_data "t" [([] : Row), []]).freshness.status = "NO TIMESTAMP" :=
  ⟨(claim_C10_all_rows_empty_like_no_rows "t" [[], []] (by decide)
      (by decide)).2.1,
   (claim_C10_all_rows_empty_like_no_rows "t" [[], []] (by decide)
      (by decide)).2.2.1⟩

/-- If `find?` succeeds, the found element splits the list into a prefix
on which the predicate fails everywhere, the element, and a suffix. -/
theorem find?_first {α : Type} {p : α → Bool} {l : List α} {a : α}
    (h : l.find? p = some a) :
    ∃ pre post, l = pre ++ a :: post ∧ ∀ e ∈ pre, p e = false := by
  induction l with
  | nil => cases h
  | cons x xs ih =>
    by_cases hx : p x = true
    · rw [List.find?_cons_of_pos _ hx] at h
      injection h with h
      subst h
      exact ⟨[], xs, rfl, fun e he => by cases he⟩
    · rw [List.find?_cons_of_neg _ hx] at h
      obtain ⟨pre, post, heq, hall⟩ := ih h
      refine ⟨x :: pre, post, by rw [List.cons_append, heq], ?_⟩
      intro e he
      rcases List.mem_cons.mp he with he | he
      · subst he
        cases hpe : p e
        · rfl
        · exact absurd hpe hx
      · exact hall e he

/-- A dataset whose detected timestamp column mixes a string and an
integer value. -/
def mixedRows2 : List Row :=
  [[("updated_at", some (Val.strV "2024-01-01"))],
   [("updated_at", some (Val.intV 7))]]

/-- Counterexample to claim C2 as stated: a candidate column exists and
the dataset is non-empty, yet the result is neither ACTIVE nor NO DATA —
`df[col].max()` raises `TypeError` on the mixed int/str column and the
endpoint returns nothing. -/
theorem claim_C2_counterexample :
    detect_timestamp_column (columnsOf mixedRows2) = some "updated_at"
    ∧ mixedRows2 ≠ []
    ∧ analyze_data_run "t" mixedRows2 = Except.error () :=
  ⟨rfl, by decide, rfl⟩

/-- Claim C2 (amended): the Freshness Detector selects the first column
(in column enumeration order) whose lowercased name exactly equals one
of the nine fixed candidates; when none exists the endpoint returns with
status NO TIMESTAMP.  When one exists (forcing a non-empty dataset,
since a column requires a row): if its non-null values mix integers and
strings, `df[col].max()` raises `TypeError` and the endpoint returns
nothing; otherwise the endpoint returns, with status ACTIVE and
`lastUpdated` the string form of the column's maximum when the maximum
is non-null (the string itself for string columns, `"5"` for an int64
column, `"5.0"` for an integer column coerced to float64 by a null or
missing cell), and with status NO DATA when the maximum is
null/absent. -/
theorem claim_C2_freshness_detector :
    ∀ (tn : String) (rows : List Row),
      (detect_timestamp_column (columnsOf rows) = none →
        (∀ c ∈ columnsOf rows,
          timestamp_candidates.contains (pyLower c) = false)
        ∧ analyze_data_run tn rows = Except.ok (analyze_data tn rows)
        ∧ (analyze_data tn rows).freshness =
            { lastUpdated := none, status := "NO TIMESTAMP" })
      ∧ (∀ c, detect_timestamp_column (columnsOf rows) = some c →
          (timestamp_candidates.contains (pyLower c) = true
            ∧ ∃ pre post, columnsOf rows = pre ++ c :: post
                ∧ ∀ e ∈ pre, timestamp_candidates.contains (pyLower e) = false)
          ∧ (colMixed rows c = true →
              analyze_data_run tn rows = Except.error ())
          ∧ (∀ v, colMax rows c = Except.ok (some v) →
              analyze_data_run tn rows = Except.ok (analyze_data tn rows)
              ∧ (analyze_data tn rows).freshness =
                  { lastUpdated := some (valStrPandas rows c v)
                    status := "ACTIVE" })
          ∧ (colMax rows c = Except.ok none →
              analyze_data_run tn rows = Except.ok (analyze_data tn rows)
              ∧ (analyze_data tn rows).freshness =
                  { lastUpdated := none, status := "NO DATA" })) := by
  intro tn rows
  have hfr : (analyze_data tn rows).freshness = freshness_state rows := rfl
  constructor
  · intro hnone
    have hfio : freshness_info rows =
        Except.ok { lastUpdated := none, status := "NO TIMESTAMP" } := by
      unfold freshness_info
      rw [hnone]
      rfl
    refine ⟨?_, ?_, ?_⟩
    · intro c hc
      have := List.find?_eq_none.mp hnone c hc
      cases hpe : timestamp_candidates.contains (pyLower c)
      · rfl
      · exact absurd hpe this
    · unfold analyze_data_run
      rw [hfio]
    · rw [hfr]
      unfold freshness_state
      rw [hfio]
  · intro c hsome
    have hsome' : (columnsOf rows).find?
        (fun c => timestamp_candidates.contains (pyLower c)) = some c := hsome
    have hp : timestamp_candidates.contains (pyLower c) = true := by
      have h2 := List.find?_some hsome'
      simpa using h2
    have hmem : c ∈ columnsOf rows := List.mem_of_find?_eq_some hsome'
    have hrne : rows ≠ [] := by
      intro h
      subst h
      cases hmem
    have hempty : dfEmpty rows = false := by
      unfold dfEmpty
      have h1 : rows.isEmpty = false := by
        cases rows with
        | nil => exact absurd rfl hrne
        | cons r rs => rfl
      have h2 : (columnsOf rows).isEmpty = false := by
        cases hc2 : columnsOf rows with
        | nil => rw [hc2] at hmem; cases hmem
        | cons a as => rfl
      rw [h1, h2]
      rfl
    have hfi : freshness_info rows =
        match colMax rows c with
        | Except.error e => Except.error e
        | Except.ok (some v) =>
          Except.ok { lastUpdated := some (valStrPandas rows c v)
                      status := "ACTIVE" }
        | Except.ok none =>
          Except.ok { lastUpdated := none, status := "NO DATA" } := by
      unfold freshness_info
      split
      · rename_i c' hc'
        rw [hsome] at hc'
        injection hc' with hc'
        subst hc'
        rw [hempty, if_pos (show (!false) = true from rfl)]
        cases colMax rows c with
        | error e => rfl
        | ok o =>
          cases o with
          | none => rfl
          | some v => rfl
      · rename_i hc'
        rw [hsome] at hc'
        cases hc'
    refine ⟨⟨hp, find?_first hsome'⟩, ?_, ?_, ?_⟩
    · intro hmix
      have hcm : colMax rows c = Except.error () := by
        unfold colMax
        rw [if_pos hmix]
      unfold analyze_data_run
      rw [hfi, hcm]
    · intro v hv
      have hfio : freshness_info rows = Except.ok
          { lastUpdated := some (valStrPandas rows c v)
            status := "ACTIVE" } := by
        rw [hfi, hv]
      constructor
      · unfold analyze_data_run
        rw [hfio]
      · rw [hfr]
        unfold freshness_state
        rw [hfio]
    · intro hv
      have hfio : freshness_info rows = Except.ok
          { lastUpdated := none, status := "NO DATA" } := by
        rw [hfi, hv]
      constructor
      · unfold analyze_data_run
        rw [hfio]
      · rw [hfr]
        unfold freshness_state
        rw [hfio]

/-- Witness for C2: a string timestamp column (ACTIVE with the string
maximum), an integer column coerced to float64 by a missing cell (ACTIVE
with `"5.0"`), an all-null candidate column (NO DATA), and no candidate
column (NO TIMESTAMP). -/
theorem claim_C2_witness :
    (analyze_data "t" [[("created_at", some (Val.strV "2024-01-01"))]]).freshness
      = { lastUpdated := some "2024-01-01", status := "ACTIVE" }
    ∧ (analyze_data "t" [[("created_at", some (Val.intV 5))], []]).freshness
      = { lastUpdated := some "5.0", status := "ACTIVE" }
    ∧ (analyze_data "t" [[("updated_at", (none : Option Val))]]).freshness
      = { lastUpdated := none, status := "NO DATA" }
    ∧ (analyze_data "t" [[("name", some (Val.strV "x"))]]).freshness
      = { lastUpdated := none, status := "NO TIMESTAMP" } :=
  ⟨(((claim_C2_freshness_detector "t"
      [[("created_at", some (Val.strV "2024-01-01"))]]).2 "created_at"
      rfl).2.2.1 (Val.strV "2024-01-01") rfl).2,
   (((claim_C2_freshness_detector "t"
      [[("created_at", some (Val.intV 5))], []]).2 "created_at"
      rfl).2.2.1 (Val.intV 5) rfl).2,
   (((claim_C2_freshness_detector "t"
      [[("updated_at", (none : Option Val))]]).2 "updated_at"
      rfl).2.2.2 rfl).2,
   ((claim_C2_freshness_detector "t"
      [[("name", some (Val.strV "x"))]]).1 rfl).2.2⟩

theorem head_append {s t : String} {c : Char} (h : s.data.head? = some c) :
    (s ++ t).data.head? = some c := by
  rw [String.data_append]
  cases hs : s.data with
  | nil => rw [hs] at h; cases h
  | cons x xs =>
    rw [hs] at h
    injection h with h
    subst h
    rfl

theorem ne_of_data_head {s t : String} {a b : Char} (hs : s.data.head? = some a)
    (ht : t.data.head? = some b) (hab : a ≠ b) : s ≠ t := by
  intro h
  subst h
  rw [ht] at hs
  injection hs with hs
  exact hab hs.symm

/-- Claim C4: the Risk Assessor emits findings in the fixed order
"no data" finding (iff the DataFrame is empty), then per-column
low-completeness (< 50) and low-uniqueness (< 10) findings in column
order with both checks independent, then the freshness-unavailable
finding exactly when the status is NO TIMESTAMP; for any other status no
freshness risk appears, and an empty row set produces exactly the
"no data" finding followed by the freshness-unavailable finding. -/
theorem claim_C4_risk_assessor_order :
    ∀ (tn : String) (rows : List Row),
      ((analyze_data tn rows).risks =
        (if dfEmpty rows = true then
          ["Table contains no data → Dataset inactive"] else [])
        ++ (column_metrics rows).flatMap (fun m =>
            (if m.completeness < 50 then
              ["Column \'" ++ m.column ++ "\' has low completeness ("
                ++ pyFloatRepr m.completeness ++ "%)"] else [])
            ++ (if m.uniqueness < 10 then
              ["Column \'" ++ m.column ++ "\' has very low uniqueness ("
                ++ pyFloatRepr m.uniqueness ++ "%)"] else []))
        ++ (if (analyze_data tn rows).freshness.status = "NO TIMESTAMP" then
            ["No timestamp column detected → Freshness unavailable"] else []))
      ∧ ((analyze_data tn rows).freshness.status ≠ "NO TIMESTAMP" →
          "No timestamp column detected → Freshness unavailable"
            ∉ (analyze_data tn rows).risks)
      ∧ (rows = [] →
          (analyze_data tn rows).risks =
            ["Table contains no data → Dataset inactive",
             "No timestamp column detected → Freshness unavailable"]) := by
  intro tn rows
  have hr : (analyze_data tn rows).risks =
      risk_list rows (column_metrics rows) (freshness_state rows).status := rfl
  have hf : (analyze_data tn rows).freshness = freshness_state rows := rfl
  refine ⟨?_, ?_, ?_⟩
  · rw [hr, hf]
    unfold risk_list
    by_cases h : (freshness_state rows).status = "NO TIMESTAMP"
    · rw [h]
      rfl
    · have hb : ((freshness_state rows).status == "NO TIMESTAMP") = false := by
        simp [h]
      rw [hb, if_neg h]
      rfl
  · intro hst hmem
    rw [hf] at hst
    rw [hr] at hmem
    unfold risk_list at hmem
    rcases List.mem_append.mp hmem with hmem | hmem
    · rcases List.mem_append.mp hmem with hmem | hmem
      · by_cases hd : dfEmpty rows = true
        · rw [if_pos hd] at hmem
          rcases List.mem_singleton.mp hmem with hmem
          exact absurd hmem (by decide)
        · rw [if_neg hd] at hmem
          cases hmem
      · obtain ⟨m, _, hx⟩ := List.mem_flatMap.mp hmem
        have hCne : ∀ (a b : String),
            ("No timestamp column detected → Freshness unavailable" : String)
              ≠ "Column \'" ++ a ++ b := by
          intro a b
          have hhead : (("Column \'" ++ a ++ b).data).head? = some 'C' :=
            head_append (head_append rfl)
          have hN : ("No timestamp column detected → Freshness unavailable"
              : String).data.head? = some 'N' := rfl
          exact fun h => ne_of_data_head hhead hN (by decide) h.symm
        rcases List.mem_append.mp hx with hx | hx
        · by_cases hc : m.completeness < 50
          · rw [if_pos hc] at hx
            rcases List.mem_singleton.mp hx with hx
            exact absurd hx (by
              have := hCne m.column
                ("\' has low completeness (" ++ pyFloatRepr m.completeness
                  ++ "%)")
              intro he
              apply this
              rw [he]
              simp [String.append_assoc])
          · rw [if_neg hc] at hx
            cases hx
        · by_cases hc : m.uniqueness < 10
          · rw [if_pos hc] at hx
            rcases List.mem_singleton.mp hx with hx
            exact absurd hx (by
              have := hCne m.column
                ("\' has very low uniqueness (" ++ pyFloatRepr m.uniqueness
                  ++ "%)")
              intro he
              apply this
              rw [he]
              simp [String.append_assoc])
          · rw [if_neg hc] at hx
            cases hx
    · have hb : ((freshness_state rows).status == "NO TIMESTAMP") = false := by
        simp [hst]
      rw [hb] at hmem
      cases hmem
  · intro h
    subst h
    rw [hr]
    rfl

/-- Witness for C4 at the empty row set. -/
theorem claim_C4_witness :
    (analyze_data "w" ([] : List Row)).risks =
      ["Table contains no data → Dataset inactive",
       "No timestamp column detected → Freshness unavailable"] :=
  (claim_C4_risk_assessor_order "w" []).2.2 rfl

theorem mem_dedupFirst {α : Type} [DecidableEq α] (l : List α) (a : α) :
    a ∈ dedupFirst l ↔ a ∈ l := by
  induction l with
  | nil => exact Iff.rfl
  | cons x xs ih =>
    simp only [dedupFirst, List.mem_cons, List.mem_filter]
    constructor
    · rintro (h | ⟨h, _⟩)
      · exact Or.inl h
      · exact Or.inr (ih.mp h)
    · rintro (h | h)
      · exact Or.inl h
      · by_cases hax : a = x
        · exact Or.inl hax
        · exact Or.inr ⟨ih.mpr h, by simpa using hax⟩

theorem dedupFirst_nodup {α : Type} [DecidableEq α] (l : List α) :
    (dedupFirst l).Nodup := by
  induction l with
  | nil => exact List.nodup_nil
  | cons x xs ih =>
    rw [dedupFirst]
    refine List.Nodup.cons ?_ (List.Nodup.filter _ ih)
    intro hmem
    rcases List.mem_filter.mp hmem with ⟨_, hne⟩
    simp at hne

theorem dedupFirst_length {α : Type} [DecidableEq α] (l : List α) :
    (dedupFirst l).length = l.dedup.length := by
  have hfin : (dedupFirst l).toFinset = l.toFinset := by
    ext a
    simp [List.mem_toFinset, mem_dedupFirst]
  calc (dedupFirst l).length
      = (dedupFirst l).toFinset.card :=
        (List.toFinset_card_of_nodup (dedupFirst_nodup l)).symm
    _ = l.toFinset.card := by rw [hfin]
    _ = l.dedup.length := List.card_toFinset l

/-- The characterization of the observed column set: a name is a column
of the DataFrame exactly when it is a key of at least one row. -/
theorem mem_columnsOf (rows : List Row) (c : String) :
    c ∈ columnsOf rows ↔ ∃ r ∈ rows, c ∈ r.map Prod.fst := by
  unfold columnsOf
  rw [mem_dedupFirst, List.mem_flatten]
  constructor
  · rintro ⟨l, hl, hc⟩
    obtain ⟨r, hr, rfl⟩ := List.mem_map.mp hl
    exact ⟨r, hr, hc⟩
  · rintro ⟨r, hr, hc⟩
    exact ⟨r.map Prod.fst, List.mem_map.mpr ⟨r, hr, rfl⟩, hc⟩

/-- The mean numerator: a sum of 0/1 indicators counts the rows passing
the test. -/
theorem sum_indicator {α : Type} (p : α → Bool) (l : List α) :
    (l.map (fun r => if p r then (1 : ℚ) else 0)).sum
      = ((l.filter p).length : ℚ) := by
  induction l with
  | nil => simp
  | cons x xs ih =>
    by_cases h : p x
    · simp only [List.map_cons, List.sum_cons, List.filter_cons, h, if_true,
        ih, List.length_cons]
      push_cast
      ring
    · simp only [List.map_cons, List.sum_cons, List.filter_cons, h,
        Bool.false_eq_true, if_false, ih]
      ring

/-- The spec's worked example: `[{a:1,b:null},{a:2,b:null},{a:null,b:null}]`. -/
def exampleRows : List Row :=
  [[("a", some (Val.intV 1)), ("b", none)],
   [("a", some (Val.intV 2)), ("b", none)],
   [("a", none), ("b", none)]]

/-- Claim C1: for every dataset with at least one row, the metrics list
has one entry per column present in at least one row (in first-appearance
order), with completeness = (non-null row count / total row count) * 100
and uniqueness = (distinct non-null value count / total row count) * 100,
both rounded to two decimal places; in particular on the spec's example
the values are 66.67/0.0/66.67/0.0. -/
theorem claim_C1_column_statistics :
    (∀ (tn : String) (rows : List Row), rows ≠ [] →
      (∀ c, (c ∈ columnsOf rows ↔ ∃ r ∈ rows, c ∈ r.map Prod.fst))
      ∧ (analyze_data tn rows).metrics =
          (columnsOf rows).map (fun c =>
            { column := c
              completeness := round2
                ((((rows.filter (fun r => (rowGet r c).isSome)).length : ℚ)
                    / (rows.length : ℚ)) * 100)
              uniqueness := round2
                ((((rows.filterMap (fun r => rowGet r c)).dedup.length : ℚ)
                    / (rows.length : ℚ)) * 100) }))
    ∧ (analyze_data "t" exampleRows).metrics =
        [{ column := "a", completeness := 66.67, uniqueness := 66.67 },
         { column := "b", completeness := 0, uniqueness := 0 }] := by
  have hgen : ∀ (tn : String) (rows : List Row), rows ≠ [] →
      (∀ c, (c ∈ columnsOf rows ↔ ∃ r ∈ rows, c ∈ r.map Prod.fst))
      ∧ (analyze_data tn rows).metrics =
          (columnsOf rows).map (fun c =>
            { column := c
              completeness := round2
                ((((rows.filter (fun r => (rowGet r c).isSome)).length : ℚ)
                    / (rows.length : ℚ)) * 100)
              uniqueness := round2
                ((((rows.filterMap (fun r => rowGet r c)).dedup.length : ℚ)
                    / (rows.length : ℚ)) * 100) }) := by
    intro tn rows hne
    refine ⟨fun c => mem_columnsOf rows c, ?_⟩
    show column_metrics rows = _
    unfold column_metrics
    by_cases hd : dfEmpty rows = true
    · rw [if_pos hd]
      have hcols : columnsOf rows = [] := by
        unfold dfEmpty at hd
        have h1 : rows.isEmpty = false := by
          cases rows with
          | nil => exact absurd rfl hne
          | cons r rs => rfl
        rw [h1, Bool.false_or] at hd
        exact List.isEmpty_iff.mp hd
      rw [hcols]
      rfl
    · rw [if_neg hd]
      apply List.map_congr_left
      intro c _
      have hcompl : notnull_mean rows c * 100 =
          (((rows.filter (fun r => (rowGet r c).isSome)).length : ℚ)
            / (rows.length : ℚ)) * 100 := by
        unfold notnull_mean
        rw [sum_indicator]
      have huniq : (nunique rows c : ℚ) / (rows.length : ℚ) * 100 =
          (((rows.filterMap (fun r => rowGet r c)).dedup.length : ℚ)
            / (rows.length : ℚ)) * 100 := by
        unfold nunique
        rw [dedupFirst_length]
      rw [hcompl, huniq]
  refine ⟨hgen, ?_⟩
  have h2 := (hgen "t" exampleRows (by decide)).2
  rw [h2]
  have hcols : columnsOf exampleRows = ["a", "b"] := by decide
  rw [hcols]
  simp only [List.map_cons, List.map_nil]
  have hfa : (exampleRows.filter (fun r => (rowGet r "a").isSome)).length = 2 :=
    by decide
  have hfb : (exampleRows.filter (fun r => (rowGet r "b").isSome)).length = 0 :=
    by decide
  have hda : (exampleRows.filterMap (fun r => rowGet r "a")).dedup.length = 2 :=
    by decide
  have hdb : (exampleRows.filterMap (fun r => rowGet r "b")).dedup.length = 0 :=
    by decide
  have hlen : exampleRows.length = 3 := rfl
  rw [hfa, hfb, hda, hdb, hlen]
  norm_num [round2]

/-- Witness for C1: the general formula instantiated at the spec's
example rows. -/
theorem claim_C1_witness :
    (analyze_data "w" exampleRows).metrics =
      (columnsOf exampleRows).map (fun c =>
        { column := c
          completeness := round2
            ((((exampleRows.filter (fun r => (rowGet r c).isSome)).length : ℚ)
                / (exampleRows.length : ℚ)) * 100)
          uniqueness := round2
            ((((exampleRows.filterMap (fun r => rowGet r c)).dedup.length : ℚ)
                / (exampleRows.length : ℚ)) * 100) }) :=
  (claim_C1_column_statistics.1 "w" exampleRows (by decide)).2

/-- Witness for C3 at the empty dataset, on which the endpoint returns. -/
theorem claim_C3_witness :
    (analyze_data "w" ([] : List Row)).freshness.status ≠ "UNKNOWN" :=
  (claim_C3_freshness_status_never_unknown "w" []
    (analyze_data "w" []) rfl).2

end NMN
